import Mathlib

/-!
Verification development for the PIANO cognitive-architecture core of the
tt_malmo repository.  The Python sources under
`tt_malmo_mcp_server/piano_architecture/` (agent_state.py,
cognitive_controller.py, modules/action_awareness.py,
modules/memory_consolidation.py, modules/goal_generation.py) and
`tt_malmo_mcp_server/mcp_server/server.py` are shallowly embedded below:
pure functions become Lean functions, stateful methods become explicit
state-passing functions, Python floats become rationals, Python dicts with
optional keys become structures with `Option` fields, and wall-clock
timestamps become rational parameters threaded explicitly.
-/

/-! ### Python string primitives

The controller and the goal module manipulate Python strings
(`strip`, `lower`, `upper`, `startswith`, `split`, substring containment).
They are modelled structurally over `List Char` so that every operation is
executable and kernel-reducible.  Only ASCII case mapping matters for the
fixed keyword tables involved, matching `Char.toLower` / `Char.toUpper`.
-/

/-- Python `str.isspace` characters relevant to `str.strip()` / `str.split()`:
space, tab, newline, carriage return, vertical tab, form feed. -/
def pyIsSpace (c : Char) : Bool :=
  c = ' ' || c = '\t' || c = '\n' || c = '\r' || c = Char.ofNat 11 || c = Char.ofNat 12

/-- Strip characters satisfying `p` from both ends of a character list,
modelling Python `str.strip(chars)`. -/
def stripList (p : Char → Bool) (l : List Char) : List Char :=
  ((l.dropWhile p).reverse.dropWhile p).reverse

/-- Python `s.strip()` (whitespace strip at both ends). -/
def pyStrip (s : String) : String :=
  ⟨stripList pyIsSpace s.data⟩

/-- Python `s.lower()` (ASCII case folding suffices for the fixed tables). -/
def pyLower (s : String) : String :=
  ⟨s.data.map Char.toLower⟩

/-- Python `s.upper()`. -/
def pyUpper (s : String) : String :=
  ⟨s.data.map Char.toUpper⟩

/-- Characters stripped by `raw_action.lower().strip(' `"\'')` in
`_parse_decision`: space, backtick, double quote, single quote. -/
def pyQuoteChar (c : Char) : Bool :=
  c = ' ' || c = Char.ofNat 96 || c = '"' || c = '\''

/-- Does `l` start with `pre` (Python `str.startswith`)? -/
def startsWithList : List Char → List Char → Bool
  | _, [] => true
  | [], _ :: _ => false
  | c :: l, p :: ps => c = p && startsWithList l ps

/-- Python `s.startswith(pre)`. -/
def pyStartsWith (s pre : String) : Bool :=
  startsWithList s.data pre.data

/-- Python `s.split('\n')`: split at every newline, keeping empty pieces. -/
def splitOnNl : List Char → List (List Char)
  | [] => [[]]
  | c :: rest =>
    if c = '\n' then
      [] :: splitOnNl rest
    else
      match splitOnNl rest with
      | [] => [[c]]
      | h :: t => (c :: h) :: t

/-- Python `line.split(':', 1)[1]`: everything after the first colon.
The callers only invoke it on lines known to contain a colon; a missing
colon yields the empty string in the model. -/
def afterFirstColon : List Char → List Char
  | [] => []
  | c :: rest => if c = ':' then rest else afterFirstColon rest

/-- Substring containment over character lists (Python `needle in hay`). -/
def containsList : List Char → List Char → Bool
  | hay, needle =>
    startsWithList hay needle ||
      match hay with
      | [] => false
      | _ :: t => containsList t needle

/-- Python `needle in hay` for strings. -/
def pyContains (hay needle : String) : Bool :=
  containsList hay.data needle.data

/-- Python `s.split()` with no argument: split on whitespace runs and drop
empty pieces. -/
def pySplitWs (s : String) : List String :=
  ((s.data.splitOnP pyIsSpace).map (fun l => (⟨l⟩ : String))).filter (fun w => w ≠ "")

/-! ### Data model

Structures mirroring the Python dictionaries and the `AgentState` dataclass
(agent_state.py).  Python dict keys that are present only on some items
become `Option` fields; absent keys are `none`.  Timestamps are rationals.
-/

/-- Inventory entry: the code reads `item.get('type', '')` and
`item.get('quantity', 0)` (action_awareness.py). -/
structure InvItem where
  type : String := ""
  quantity : Int := 0
deriving DecidableEq

/-- Location record `{x, y, z}` (agent_state.py `current_location`). -/
structure Location where
  x : ℚ
  y : ℚ
  z : ℚ
deriving DecidableEq

/-- Expected per-axis location delta; the Python dict may lack axes. -/
structure LocationDelta where
  x : Option ℚ := none
  y : Option ℚ := none
  z : Option ℚ := none
deriving DecidableEq

/-- Raw observation from Malmo; only the fields this core reads are kept. -/
structure Observation where
  XPos : Option ℚ := none
  YPos : Option ℚ := none
  ZPos : Option ℚ := none
  Life : Option ℚ := none
  Food : Option ℚ := none
  inventory : List InvItem := []
  nearby_blocks : List String := []
deriving DecidableEq

/-- Memory item: a Python dict whose keys vary by producer
(`event`, `type`, `expected`, `reason`, `timestamp`, `importance`). -/
structure MemoryItem where
  event : Option String := none
  type : Option String := none
  expected : Option String := none
  reason : Option String := none
  timestamp : Option ℚ := none
  importance : Option ℚ := none
deriving DecidableEq

/-- Goal entry.  Module-generated goals carry `generated_at`/`status`
(goal_generation.py); operator goals carry `source`/`timestamp`
(server.py `set_agent_goal`). -/
structure Goal where
  description : String := ""
  priority : ℚ := 0
  source : Option String := none
  status : Option String := none
  generated_at : Option ℚ := none
  timestamp : Option ℚ := none
deriving DecidableEq

/-- Decision produced by `_parse_decision` (cognitive_controller.py). -/
structure Decision where
  action : String
  reasoning : String
  timestamp : ℚ
  agent_id : String
deriving DecidableEq

/-- Expected outcome stored by `set_expectation` (action_awareness.py). -/
structure ExpectedChanges where
  inventory_change : Option (List (String × Int)) := none
  location_change : Option LocationDelta := none
  health_change : Option ℚ := none
deriving DecidableEq

/-- Pending expectation record `{action, expected_changes, set_time}`. -/
structure Expectation where
  action : String
  expected_changes : ExpectedChanges
  set_time : Option ℚ := none
deriving DecidableEq

/-- Shared agent state (agent_state.py `AgentState`).  The Python `Lock`
serialises accessor calls; each accessor is modelled as a pure state
transformer, which is exactly the lock-protected atomic step. -/
structure AgentState where
  agent_id : String
  name : String
  role : Int
  traits : List String := []
  working_memory : List MemoryItem := []
  short_term_memory : List MemoryItem := []
  long_term_memory : List MemoryItem := []
  current_observation : Option Observation := none
  current_location : Option Location := none
  current_inventory : List InvItem := []
  current_health : ℚ := 20
  current_hunger : ℚ := 20
  current_goals : List Goal := []
  bottleneck_decision : Option Decision := none
  action_success_rate : ℚ := 1
deriving DecidableEq

/-- The `add_to_memory` accessor (agent_state.py lines 93-116): stamps the
timestamp, appends to the named tier, and pops the front entry when the
tier exceeds its cap (5 for working, 50 for short-term; long-term unbounded). -/
def add_to_memory (st : AgentState) (memory_type : String) (item : MemoryItem)
    (now : ℚ) : AgentState :=
  let item := { item with timestamp := some now }
  if memory_type = "working" then
    let wm := st.working_memory ++ [item]
    { st with working_memory := if 5 < wm.length then wm.tail else wm }
  else if memory_type = "short_term" then
    let stm := st.short_term_memory ++ [item]
    { st with short_term_memory := if 50 < stm.length then stm.tail else stm }
  else if memory_type = "long_term" then
    { st with long_term_memory := st.long_term_memory ++ [item] }
  else st

/-! ### Cognitive controller (cognitive_controller.py)

`ACTION_MENU`, `_parse_decision`, `make_decision` and a single iteration of
`run_decision_loop`.  The reasoning-oracle call `self.llm.generate(prompt)`
is an external effect: its result (or the exception it raised) is passed in
as an `Except` value.
-/

/-- Valid actions the LLM can choose from (action name, Malmo command). -/
def ACTION_MENU : List (String × String) :=
  [("move_forward",  "move 1"),
   ("turn_left",     "turn -1"),
   ("turn_right",    "turn 1"),
   ("place_block",   "use 1"),
   ("mine_block",    "attack 1"),
   ("jump_forward",  "jump 1"),
   ("select_slot_3", "hotbar.3 1"),
   ("select_slot_4", "hotbar.4 1"),
   ("select_slot_5", "hotbar.5 1"),
   ("select_slot_6", "hotbar.6 1"),
   ("select_slot_7", "hotbar.7 1"),
   ("look_around",   "turn 1"),
   ("wait",          "move 0")]

/-- Keys of `ACTION_MENU`; Python `action_key not in self.ACTION_MENU`
tests key membership. -/
def actionMenuKeys : List String := ACTION_MENU.map Prod.fst

/-- The line scan of `_parse_decision`: iterate over the lines, keeping the
last `ACTION:` payload and the last `REASONING:` payload (each line is
stripped; the tag match is on the uppercased line; the payload is the
stripped text after the first colon). -/
def scanDecisionLines (lines : List String) : String × String :=
  lines.foldl
    (fun acc line =>
      let line := pyStrip line
      if pyStartsWith (pyUpper line) "ACTION:" then
        (pyStrip ⟨afterFirstColon line.data⟩, acc.2)
      else if pyStartsWith (pyUpper line) "REASONING:" then
        (acc.1, pyStrip ⟨afterFirstColon line.data⟩)
      else acc)
    ("", "")

/-- Lines of `decision_text.strip().split('\n')`. -/
def decisionLines (decision_text : String) : List String :=
  (splitOnNl (pyStrip decision_text).data).map (fun l => (⟨l⟩ : String))

/-- The raw action text extracted from an oracle reply. -/
def extractRawAction (decision_text : String) : String :=
  (scanDecisionLines (decisionLines decision_text)).1

/-- Normalisation step `raw_action.lower().strip(' `"\'')`. -/
def normalizeActionToken (raw_action : String) : String :=
  ⟨stripList pyQuoteChar (pyLower raw_action).data⟩

/-- The normalised candidate token of an oracle reply. -/
def actionKeyOf (decision_text : String) : String :=
  normalizeActionToken (extractRawAction decision_text)

/-- `_parse_decision` (cognitive_controller.py lines 285-318): scan the
reply for `ACTION:` / `REASONING:` lines, normalise the action token, fall
back to `move_forward` when the token is not an `ACTION_MENU` key. -/
def parse_decision (decision_text : String) (agent_state : AgentState)
    (now : ℚ) : Decision :=
  let reasoning := (scanDecisionLines (decisionLines decision_text)).2
  let action_key := actionKeyOf decision_text
  let action_key := if action_key ∈ actionMenuKeys then action_key else "move_forward"
  { action := action_key
    reasoning := reasoning
    timestamp := now
    agent_id := agent_state.agent_id }

/-- `set_bottleneck_decision` (agent_state.py lines 153-162). -/
def set_bottleneck_decision (st : AgentState) (decision : Decision) : AgentState :=
  { st with bottleneck_decision := some decision }

/-- `make_decision` (cognitive_controller.py lines 44-77) with the oracle
reply passed in: on oracle success the reply is parsed and the decision is
published to the agent state; an oracle exception propagates (as `.error`)
to the caller, `run_decision_loop`. -/
def make_decision (st : AgentState) (oracleReply : Except String String)
    (now : ℚ) : Except String (Decision × AgentState) :=
  match oracleReply with
  | .error e => .error e
  | .ok text =>
    let decision := parse_decision text st now
    .ok (decision, set_bottleneck_decision st decision)

/-- Outcome of one iteration of `run_decision_loop`: the agent state after
the iteration, how long the loop then sleeps, and whether it terminated. -/
structure LoopStep where
  state : AgentState
  sleepSeconds : ℚ
  terminated : Bool
deriving DecidableEq

/-- One iteration of `run_decision_loop` (cognitive_controller.py lines
320-337): on success the decision is published and the loop sleeps for
`decision_interval`; any exception is caught, the state is left as it was,
and the loop sleeps 1 second before retrying.  The `while True` loop never
terminates in either case. -/
def run_decision_loop_step (decision_interval : ℚ) (st : AgentState)
    (oracleReply : Except String String) (now : ℚ) : LoopStep :=
  match make_decision st oracleReply now with
  | .ok (_, st') => { state := st', sleepSeconds := decision_interval, terminated := false }
  | .error _ => { state := st, sleepSeconds := 1, terminated := false }

/-! ### Action awareness (modules/action_awareness.py)

The module object carries the pending expectation and its set time; the
`datetime.now()` reads are modelled by an explicit `now` parameter, so
`time_elapsed = now - set_time`.
-/

/-- Mutable fields of `ActionAwarenessModule`. -/
structure ActionAwarenessState where
  expected_outcome : Option Expectation := none
  expected_set_time : Option ℚ := none
deriving DecidableEq

/-- `self.action_timeout` — seconds to wait for action completion. -/
def action_timeout : ℚ := 5

/-- `self.match_threshold` — minimum similarity for a successful action. -/
def match_threshold : ℚ := 6/10

/-- Result dictionary returned by `ActionAwarenessModule.process`.  The
purely textual `message` and the logging payloads `expected`/`observed`
are not modelled; `status`, `match_score`, `correction_needed` and
`correction` are. -/
structure AWResult where
  status : String
  match_score : Option ℚ := none
  correction_needed : Bool := false
  correction : Option String := none
deriving DecidableEq

/-- Last-occurrence lookup in an association list, modelling lookup in a
Python dict built by a comprehension (later keys overwrite earlier ones). -/
def dictGet (l : List (String × Int)) (k : String) (dflt : Int) : Int :=
  match l.reverse.find? (fun p => p.1 == k) with
  | some p => p.2
  | none => dflt

/-- `_check_inventory_change` (action_awareness.py lines 217-246): with an
empty inventory the score is 0; otherwise each expected item counts as a
match when a positive expected change finds a positive held quantity, or a
negative expected change finds quantity 0. -/
def check_inventory_change (expected_items : List (String × Int))
    (actual_inventory : List InvItem) : ℚ :=
  if actual_inventory = [] then 0
  else
    let inventory_dict := actual_inventory.map (fun item => (item.type, item.quantity))
    let matchCount := (expected_items.filter (fun p =>
        let actual_quantity := dictGet inventory_dict p.1 0
        decide ((0 < p.2 ∧ 0 < actual_quantity) ∨ (p.2 < 0 ∧ actual_quantity = 0)))).length
    let total := expected_items.length
    if 0 < total then (matchCount : ℚ) / (total : ℚ) else 0

/-- `_check_location_change` (action_awareness.py lines 248-270): each axis
present in the expected delta with a nonzero value counts, normalised by 3;
a missing actual location scores 0. -/
def check_location_change (expected_delta : LocationDelta)
    (actual_location : Option Location) : ℚ :=
  match actual_location with
  | none => 0
  | some _ =>
    let axes := [expected_delta.x, expected_delta.y, expected_delta.z]
    let matchCount := (axes.filter (fun a =>
        match a with
        | some v => decide (v ≠ 0)
        | none => false)).length
    (matchCount : ℚ) / 3

/-- `_compute_match_score` (action_awareness.py lines 149-215).  Note the
health branch of the source compares `agent_state.current_health` with
itself (`actual_health = agent_state.current_health`), reproduced verbatim
here. -/
def compute_match_score (expected : Option Expectation)
    (observed : Option Observation) (agent_state : AgentState) : ℚ :=
  match expected, observed with
  | some exp, some _ =>
    let expected_changes := exp.expected_changes
    let action := exp.action
    let score : ℚ := 0
    let checks : ℕ := 0
    let (score, checks) :=
      if action ∈ ["mine_block", "pick_up_item", "craft_item"] then
        match expected_changes.inventory_change with
        | some expected_items =>
          (score + check_inventory_change expected_items agent_state.current_inventory,
           checks + 1)
        | none => (score, checks)
      else (score, checks)
    let (score, checks) :=
      if action ∈ ["move_forward", "move_back", "turn", "jump"] then
        match expected_changes.location_change with
        | some expected_delta =>
          (score + check_location_change expected_delta agent_state.current_location,
           checks + 1)
        | none => (score, checks)
      else (score, checks)
    let (score, checks) :=
      match expected_changes.health_change with
      | some expected_health =>
        let actual_health := agent_state.current_health
        (if (0 < expected_health ∧ agent_state.current_health < actual_health)
            ∨ (expected_health < 0 ∧ actual_health < agent_state.current_health)
         then score + 1 else score,
         checks + 1)
      | none => (score, checks)
    if checks = 0 then 7/10 else score / (checks : ℚ)
  | _, _ => 0

/-- `_generate_correction` (action_awareness.py lines 289-302). -/
def generate_correction (expected : Expectation) : String :=
  "The " ++ expected.action ++
    " did not complete as expected. The environment state did not change in the expected way."

/-- `_update_success_rate` EMA step on the raw rate value
(action_awareness.py lines 304-316, `alpha = 0.1`). -/
def update_success_rate_value (current_rate : ℚ) (success : Bool) : ℚ :=
  current_rate * (1 - 1/10) + (if success then 1 else 0) * (1/10)

/-- `_update_success_rate` applied to the agent state. -/
def update_success_rate (agent_state : AgentState) (success : Bool) : AgentState :=
  { agent_state with
    action_success_rate := update_success_rate_value agent_state.action_success_rate success }

/-- `ActionAwarenessModule.process` (action_awareness.py lines 46-130),
returning the result dictionary, the module state and the agent state
after the call.  Branch order follows the source: no expectation →
timeout check → no observation → match-score comparison with success and
mismatch outcomes.  The timeout and success branches do not touch working
memory; the mismatch branch appends a correction memory entry. -/
def awProcess (m : ActionAwarenessState) (agent_state : AgentState) (now : ℚ) :
    AWResult × ActionAwarenessState × AgentState :=
  match m.expected_outcome with
  | none => ({ status := "no_expectation" }, m, agent_state)
  | some exp =>
    let timedOut :=
      match m.expected_set_time with
      | some t => decide (action_timeout < now - t)
      | none => false
    if timedOut then
      ({ status := "timeout", correction_needed := true },
       { m with expected_outcome := none },
       update_success_rate agent_state false)
    else
      match agent_state.current_observation with
      | none => ({ status := "no_observation" }, m, agent_state)
      | some actual_observation =>
        let match_score := compute_match_score (some exp) (some actual_observation) agent_state
        if match_threshold ≤ match_score then
          ({ status := "success", match_score := some match_score },
           { m with expected_outcome := none },
           update_success_rate agent_state true)
        else
          let correction := generate_correction exp
          let agent_state := update_success_rate agent_state false
          let agent_state := add_to_memory agent_state "working"
            { type := some "action_failure"
              expected := some exp.action
              reason := some correction } now
          ({ status := "mismatch", match_score := some match_score
             correction_needed := true, correction := some correction },
           { m with expected_outcome := none },
           agent_state)

/-! ### Memory consolidation (modules/memory_consolidation.py)

Only `_consolidate_working_to_short_term` and `_compute_importance` are
needed by the claims.  Python `list.sort(key=..., reverse=True)` is a
stable descending sort; `List.insertionSort` with the relation
`key b ≤ key a` is the stable descending sort, hence extensionally the
same function.
-/

/-- `self.working_to_short_term_threshold`. -/
def working_to_short_term_threshold : ℚ := 3/10

/-- Distinct words of a string, modelling Python `set(s.split())`; only the
size of intersections of such sets is ever used. -/
def pyWordSet (s : String) : List String :=
  (pySplitWs s).dedup

/-- `_compute_importance` (memory_consolidation.py lines 187-234):
type-tag heuristics plus a goal-keyword-overlap bonus, capped at 1. -/
def compute_importance (memory : MemoryItem) (agent_state : AgentState) : ℚ :=
  let memory_type := memory.type.getD "unknown"
  let importance : ℚ := 0
  let importance :=
    if memory_type ∈ ["damage_taken", "near_death", "action_failure"] then importance + 8/10
    else importance
  let importance :=
    if memory_type ∈ ["item_acquired", "goal_completed", "new_agent_met"] then importance + 5/10
    else importance
  let importance :=
    if memory_type ∈ ["movement", "observation", "routine"] then importance + 2/10
    else importance
  let importance := agent_state.current_goals.foldl
    (fun imp goal =>
      let goal_words := pyWordSet (pyLower goal.description)
      let memory_words := pyWordSet (pyLower (memory.event.getD ""))
      let overlap := (goal_words.filter (fun w => memory_words.contains w)).length
      if 0 < overlap then imp + 2/10 * ((min overlap 2 : ℕ) : ℚ) else imp)
    importance
  min 1 importance

/-- Descending-by-importance order used by the short-term trim,
`key=lambda m: m.get('importance', 0), reverse=True`. -/
def memImpGE (a b : MemoryItem) : Prop :=
  b.importance.getD 0 ≤ a.importance.getD 0

instance : DecidableRel memImpGE :=
  fun a b => inferInstanceAs (Decidable (b.importance.getD 0 ≤ a.importance.getD 0))

instance : IsTotal MemoryItem memImpGE :=
  ⟨fun a b => le_total (b.importance.getD 0) (a.importance.getD 0)⟩

instance : IsTrans MemoryItem memImpGE :=
  ⟨fun _ _ _ h1 h2 => le_trans h2 h1⟩

/-- Python stable descending sort of memories by importance. -/
def sortMemDesc (l : List MemoryItem) : List MemoryItem :=
  l.insertionSort memImpGE

/-- Memories promoted by one consolidation pass: the working items whose
computed importance reaches the threshold, with the `importance` key set.
In the source the loop mutates each promoted dict in place and appends the
same object to `short_term_memory`. -/
def promotedMemories (agent_state : AgentState) : List MemoryItem :=
  (agent_state.working_memory.filter
      (fun m => decide (working_to_short_term_threshold ≤ compute_importance m agent_state))).map
    (fun m => { m with importance := some (compute_importance m agent_state) })

/-- Short-term tier content immediately after the promotion loop, before
the cap check. -/
def consolidationAppend (agent_state : AgentState) : List MemoryItem :=
  agent_state.short_term_memory ++ promotedMemories agent_state

/-- `_consolidate_working_to_short_term` (memory_consolidation.py lines
80-111): promote important working memories, then if the tier exceeds 50
sort it by importance descending and keep the first 50.  Returns the new
state and the consolidated count.  The promoted dicts are mutated in
place, so the working list now carries their `importance` keys too. -/
def consolidate_working_to_short_term (agent_state : AgentState) :
    AgentState × ℕ :=
  let consolidated_count := (promotedMemories agent_state).length
  let working := agent_state.working_memory.map
    (fun m =>
      if working_to_short_term_threshold ≤ compute_importance m agent_state then
        { m with importance := some (compute_importance m agent_state) }
      else m)
  let short_term := consolidationAppend agent_state
  let short_term :=
    if 50 < short_term.length then (sortMemDesc short_term).take 50 else short_term
  ({ agent_state with working_memory := working, short_term_memory := short_term },
   consolidated_count)

/-! ### Goal generation (modules/goal_generation.py) and the operator
override (mcp_server/server.py `set_agent_goal`). -/

/-- `_compute_priority` (goal_generation.py lines 214-249): keyword
heuristics; `word in goal_lower` is substring containment. -/
def compute_priority (goal : String) (agent_state : AgentState) : ℚ :=
  let goal_lower := pyLower goal
  if agent_state.current_health < 10 ∧
      (["health", "heal", "shelter", "hide"].any (fun w => pyContains goal_lower w)) then 1
  else if agent_state.current_hunger < 6 ∧
      (["food", "eat", "hunt"].any (fun w => pyContains goal_lower w)) then 9/10
  else if ["gather", "collect", "mine", "wood", "stone"].any (fun w => pyContains goal_lower w) then 7/10
  else if ["trade", "help", "cooperate", "talk"].any (fun w => pyContains goal_lower w) then 6/10
  else if ["explore", "find", "search"].any (fun w => pyContains goal_lower w) then 5/10
  else 5/10

/-- Descending-by-priority order used by the goal trim,
`key=lambda g: g.get('priority', 0), reverse=True`. -/
def goalPriGE (a b : Goal) : Prop :=
  b.priority ≤ a.priority

instance : DecidableRel goalPriGE :=
  fun a b => inferInstanceAs (Decidable (b.priority ≤ a.priority))

instance : IsTotal Goal goalPriGE :=
  ⟨fun a b => le_total b.priority a.priority⟩

instance : IsTrans Goal goalPriGE :=
  ⟨fun _ _ _ h1 h2 => le_trans h2 h1⟩

/-- Python stable descending sort of goals by priority. -/
def sortGoalsDesc (l : List Goal) : List Goal :=
  l.insertionSort goalPriGE

/-- The goal-insertion part of `GoalGenerationModule.process`
(goal_generation.py lines 57-74), given the goal text returned by the
oracle path: build the entry, append it, sort by priority descending and
keep only the top 3. -/
def goal_process_insert (agent_state : AgentState) (new_goal : String)
    (now : ℚ) : AgentState :=
  let goal_entry : Goal :=
    { description := new_goal
      generated_at := some now
      status := some "active"
      priority := compute_priority new_goal agent_state }
  let current_goals := agent_state.current_goals ++ [goal_entry]
  let current_goals := sortGoalsDesc current_goals
  let current_goals := current_goals.take 3
  { agent_state with current_goals := current_goals }

/-- `set_agent_goal` (mcp_server/server.py lines 279-310): build the user
goal with `priority = goal.get('priority', 10)`, insert it at the head of
the goal list and keep only the first 5 entries. -/
def set_agent_goal (agent_state : AgentState) (description : Option String)
    (priority : Option ℚ) (now : ℚ) : AgentState :=
  let new_goal : Goal :=
    { description := description.getD "No description"
      priority := priority.getD 10
      source := some "user"
      timestamp := some now }
  let current_goals := new_goal :: agent_state.current_goals
  { agent_state with current_goals := current_goals.take 5 }

/-! ### Shared concrete fixtures and helper definitions for theorems -/

/-- A freshly constructed agent state (all defaulted fields). -/
def baseAgentState : AgentState :=
  { agent_id := "agent-1", name := "Explorer1", role := 0 }

/-- The last `n` elements of a list. -/
def keepLast (n : ℕ) (l : List α) : List α := l.drop (l.length - n)

/-- Success rate after a sequence of EMA updates starting from the
`AgentState` initial value 1.0. -/
def successRateAfter (updates : List Bool) : ℚ :=
  updates.foldl update_success_rate_value 1

/-! ### C1 — parse step always yields a menu action -/

/-- C1: for every oracle reply string, `_parse_decision` returns a decision
whose action is a key of `ACTION_MENU`; the normalised token is kept when
it is a key and replaced by the default `move_forward` otherwise (and the
function is total, hence never raises). -/
theorem parse_decision_action_in_menu (s : String) (agent_state : AgentState) (now : ℚ) :
    (parse_decision s agent_state now).action ∈ actionMenuKeys
    ∧ (actionKeyOf s ∈ actionMenuKeys →
        (parse_decision s agent_state now).action = actionKeyOf s)
    ∧ (actionKeyOf s ∉ actionMenuKeys →
        (parse_decision s agent_state now).action = "move_forward") := by
  by_cases h : actionKeyOf s ∈ actionMenuKeys
  · refine ⟨?_, fun _ => ?_, fun hc => absurd h hc⟩ <;> simp [parse_decision, h]
  · have ha : (parse_decision s agent_state now).action = "move_forward" := by
      simp [parse_decision, h]
    refine ⟨?_, fun hc => absurd hc h, fun _ => ha⟩
    rw [ha]
    decide

/-- Witness for C1 at a concrete malformed reply whose token is not in the
menu. -/
theorem parse_decision_action_in_menu_witness :
    (parse_decision "ACTION: fly" baseAgentState 0).action ∈ actionMenuKeys
    ∧ (parse_decision "ACTION: fly" baseAgentState 0).action = "move_forward" :=
  ⟨(parse_decision_action_in_menu "ACTION: fly" baseAgentState 0).1,
   (parse_decision_action_in_menu "ACTION: fly" baseAgentState 0).2.2 (by decide)⟩

/-! ### C2 — decision-loop failure semantics -/

/-- C2 (amended): any exception raised inside `make_decision` (the REASON /
PARSE phase) is caught by `run_decision_loop`; the loop then publishes no
replacement decision (the agent state is left exactly as it was), sleeps
for the fixed 1-second backoff rather than the decision interval, and does
not terminate — in fact no iteration terminates the loop. -/
theorem run_decision_loop_step_error_behavior :
    (∀ (decision_interval : ℚ) (st : AgentState) (reply : Except String String) (now : ℚ),
        (run_decision_loop_step decision_interval st reply now).terminated = false)
    ∧ (∀ (decision_interval : ℚ) (st : AgentState) (e : String) (now : ℚ),
        run_decision_loop_step decision_interval st (Except.error e) now
          = { state := st, sleepSeconds := 1, terminated := false }) := by
  constructor
  · intro decision_interval st reply now
    cases reply <;> rfl
  · intro decision_interval st e now
    rfl

/-- Counterexample for C2 as stated: with the default 5-second decision
interval, a failing oracle call leaves the published decision empty (no
default `wait`/`move_forward` decision is substituted) and the loop sleeps
1 second, not the normal interval. -/
theorem run_decision_loop_step_error_counterexample :
    (run_decision_loop_step 5 baseAgentState (Except.error "oracle failure") 0).state.bottleneck_decision = none
    ∧ (run_decision_loop_step 5 baseAgentState (Except.error "oracle failure") 0).sleepSeconds = 1
    ∧ ((1 : ℚ) ≠ 5) :=
  ⟨rfl, rfl, by norm_num⟩

/-! ### C6 — success-rate EMA bounds -/

/-- One EMA update keeps the rate inside the unit interval. -/
theorem update_success_rate_value_mem_unit (r : ℚ) (b : Bool)
    (h0 : 0 ≤ r) (h1 : r ≤ 1) :
    0 ≤ update_success_rate_value r b ∧ update_success_rate_value r b ≤ 1 := by
  cases b <;> simp [update_success_rate_value] <;> constructor <;> nlinarith

/-- Folding EMA updates keeps the rate inside the unit interval. -/
theorem foldl_update_success_rate_mem_unit (updates : List Bool) :
    ∀ r : ℚ, 0 ≤ r → r ≤ 1 →
      0 ≤ updates.foldl update_success_rate_value r
      ∧ updates.foldl update_success_rate_value r ≤ 1 := by
  induction updates with
  | nil => exact fun r h0 h1 => ⟨h0, h1⟩
  | cons b rest ih =>
    intro r h0 h1
    have h := update_success_rate_value_mem_unit r b h0 h1
    simpa using ih (update_success_rate_value r b) h.1 h.2

/-- C6: the success rate starts at 1.0 (the `AgentState` field default),
every interleaving of success/failure EMA updates with α = 0.1 keeps it in
[0,1], and ten consecutive failures from 1.0 drive it below 0.5 but not
below 0. -/
theorem action_success_rate_bounds :
    baseAgentState.action_success_rate = 1
    ∧ (∀ (st : AgentState) (b : Bool),
        (update_success_rate st b).action_success_rate
          = update_success_rate_value st.action_success_rate b)
    ∧ (∀ updates : List Bool,
        0 ≤ successRateAfter updates ∧ successRateAfter updates ≤ 1)
    ∧ successRateAfter (List.replicate 10 false) < 1/2
    ∧ 0 ≤ successRateAfter (List.replicate 10 false) := by
  refine ⟨rfl, fun st b => rfl, ?_, ?_, ?_⟩
  · intro updates
    exact foldl_update_success_rate_mem_unit updates 1 (by norm_num) (by norm_num)
  · show (List.replicate 10 false).foldl update_success_rate_value 1 < 1/2
    norm_num [List.replicate, update_success_rate_value]
  · show 0 ≤ (List.replicate 10 false).foldl update_success_rate_value 1
    norm_num [List.replicate, update_success_rate_value]

/-! ### C5 — the self-comparing health branch -/

/-- C5: the health branch of `_compute_match_score` compares
`agent_state.current_health` with itself, so it never scores; hence any
pending expectation whose expected changes hold only a `health_change`
entry gets match score 0 and (with an observation present and no timeout)
the outcome is always a mismatch — whatever the expected direction and
whatever actually happened to health. -/
theorem health_change_branch_never_matches (act : String) (h : ℚ)
    (st : AgentState) (obs : Observation) (tset now : ℚ)
    (hobs : st.current_observation = some obs)
    (hontime : ¬ (action_timeout < now - tset)) :
    compute_match_score
        (some { action := act, expected_changes := { health_change := some h } })
        (some obs) st = 0
    ∧ (awProcess
        { expected_outcome := some { action := act, expected_changes := { health_change := some h } }
          expected_set_time := some tset } st now).1.status = "mismatch" := by
  have hscore : compute_match_score
      (some { action := act, expected_changes := { health_change := some h } })
      (some obs) st = 0 := by
    simp [compute_match_score]
  refine ⟨hscore, ?_⟩
  have hd : decide (action_timeout < now - tset) = false := decide_eq_false hontime
  norm_num [awProcess, hd, hobs, hscore, match_threshold]

/-- Witness for C5 at a concrete expectation (a hoped-for health gain of 2
while health is unchanged). -/
theorem health_change_branch_never_matches_witness :
    compute_match_score
        (some { action := "eat_food", expected_changes := { health_change := some 2 } })
        (some {}) { baseAgentState with current_observation := some {} } = 0
    ∧ (awProcess
        { expected_outcome := some { action := "eat_food", expected_changes := { health_change := some 2 } }
          expected_set_time := some 0 }
        { baseAgentState with current_observation := some {} } 0).1.status = "mismatch" :=
  health_change_branch_never_matches "eat_food" 2
    { baseAgentState with current_observation := some {} } {} 0 0 rfl
    (by norm_num [action_timeout])

/-! ### C4 — expectation timeout handling -/

/-- C4 (amended): once a pending expectation is more than 5 seconds old,
`process` returns a `timeout` result flagged `correction_needed` (an action
failure, not an exception), feeds a failure into the success-rate EMA,
clears the expectation — and leaves working memory untouched: no
correction memory entry is written on the timeout path. -/
theorem awProcess_timeout_behavior (m : ActionAwarenessState) (st : AgentState)
    (e : Expectation) (t now : ℚ)
    (hexp : m.expected_outcome = some e)
    (htime : m.expected_set_time = some t)
    (hlate : action_timeout < now - t) :
    (awProcess m st now).1 = { status := "timeout", correction_needed := true }
    ∧ (awProcess m st now).2.1.expected_outcome = none
    ∧ (awProcess m st now).2.2.action_success_rate = st.action_success_rate * (9/10)
    ∧ (awProcess m st now).2.2.working_memory = st.working_memory := by
  obtain ⟨eo, est⟩ := m
  simp only at hexp htime
  subst hexp htime
  have hd : decide (action_timeout < now - t) = true := decide_eq_true hlate
  have hfalse : update_success_rate_value st.action_success_rate false
      = st.action_success_rate * (9/10) := by
    unfold update_success_rate_value
    norm_num
  refine ⟨?_, ?_, ?_, ?_⟩ <;>
    simp [awProcess, hd, update_success_rate, hfalse]

/-- Witness for C4 at a concrete expectation that is 6 seconds old. -/
theorem awProcess_timeout_behavior_witness :
    (awProcess
        { expected_outcome := some { action := "mine_block", expected_changes := {} }
          expected_set_time := some 0 } baseAgentState 6).1
      = { status := "timeout", correction_needed := true }
    ∧ (awProcess
        { expected_outcome := some { action := "mine_block", expected_changes := {} }
          expected_set_time := some 0 } baseAgentState 6).2.1.expected_outcome = none
    ∧ (awProcess
        { expected_outcome := some { action := "mine_block", expected_changes := {} }
          expected_set_time := some 0 } baseAgentState 6).2.2.action_success_rate
      = baseAgentState.action_success_rate * (9/10)
    ∧ (awProcess
        { expected_outcome := some { action := "mine_block", expected_changes := {} }
          expected_set_time := some 0 } baseAgentState 6).2.2.working_memory
      = baseAgentState.working_memory :=
  awProcess_timeout_behavior
    { expected_outcome := some { action := "mine_block", expected_changes := {} }
      expected_set_time := some 0 }
    baseAgentState { action := "mine_block", expected_changes := {} } 0 6 rfl rfl
    (by norm_num [action_timeout])

/-- Counterexample for C4 as stated: at a concrete timed-out expectation
the process step reports `timeout` yet the working memory stays empty — no
correction memory entry is appended, contrary to the claim. -/
theorem awProcess_timeout_no_memory_counterexample :
    (awProcess
        { expected_outcome := some { action := "place_block", expected_changes := {} }
          expected_set_time := some 0 } baseAgentState 7).1.status = "timeout"
    ∧ (awProcess
        { expected_outcome := some { action := "place_block", expected_changes := {} }
          expected_set_time := some 0 } baseAgentState 7).2.2.working_memory = [] := by
  constructor <;> norm_num [awProcess, action_timeout, update_success_rate, baseAgentState]

/-! ### C3 — mine_block expectation versus observed inventory -/

/-- Appending with the working-memory cap always leaves the new element at
the back. -/
theorem getLast?_capped {α : Type} (l : List α) (x : α) :
    (if 5 < (l ++ [x]).length then (l ++ [x]).tail else l ++ [x]).getLast? = some x := by
  split_ifs with h
  · cases l with
    | nil => simp at h
    | cons a t =>
      simp only [List.cons_append, List.tail_cons]
      exact List.getLast?_concat _
  · exact List.getLast?_concat _

/-- Appending to working memory always leaves the stamped item at the back,
whether or not the cap made the tier drop its oldest entry. -/
theorem add_to_memory_working_getLast (st : AgentState) (item : MemoryItem) (now : ℚ) :
    (add_to_memory st "working" item now).working_memory.getLast?
      = some { item with timestamp := some now } := by
  have h := getLast?_capped st.working_memory ({ item with timestamp := some now })
  simpa [add_to_memory] using h

/-- The tier append never touches the success rate. -/
theorem add_to_memory_preserves_rate (st : AgentState) (tier : String)
    (item : MemoryItem) (now : ℚ) :
    (add_to_memory st tier item now).action_success_rate = st.action_success_rate := by
  unfold add_to_memory
  split_ifs <;> rfl

/-- Shape of the mismatch branch of `process`: when an expectation is
pending, not timed out, an observation is present and the match score is
below the threshold, the module reports a mismatch, clears the
expectation, feeds a failure to the EMA and appends the correction memory. -/
theorem awProcess_mismatch_shape (m : ActionAwarenessState) (st : AgentState)
    (e : Expectation) (obs : Observation) (t now : ℚ)
    (hexp : m.expected_outcome = some e)
    (htime : m.expected_set_time = some t)
    (hontime : ¬ (action_timeout < now - t))
    (hobs : st.current_observation = some obs)
    (hscore : compute_match_score (some e) (some obs) st < match_threshold) :
    awProcess m st now =
      ({ status := "mismatch"
         match_score := some (compute_match_score (some e) (some obs) st)
         correction_needed := true
         correction := some (generate_correction e) },
       { m with expected_outcome := none },
       add_to_memory (update_success_rate st false) "working"
         { type := some "action_failure"
           expected := some e.action
           reason := some (generate_correction e) } now) := by
  obtain ⟨eo, est⟩ := m
  simp only at hexp htime
  subst hexp htime
  have hd : decide (action_timeout < now - t) = false := decide_eq_false hontime
  have hth : ¬ (match_threshold ≤ compute_match_score (some e) (some obs) st) :=
    not_le.mpr hscore
  simp [awProcess, hd, hobs, hth]

/-- A `mine_block` expectation of gaining wood scores 0 when the observed
inventory holds no wood. -/
theorem check_inventory_change_no_wood (inv : List InvItem)
    (hwood : dictGet (inv.map (fun i => (i.type, i.quantity))) "wood" 0 ≤ 0) :
    check_inventory_change [("wood", 1)] inv = 0 := by
  unfold check_inventory_change
  split_ifs with hinv
  · rfl
  · have hq : ¬ ((0 : Int) < 1 ∧ 0 < dictGet (inv.map (fun i => (i.type, i.quantity))) "wood" 0
        ∨ (1 : Int) < 0 ∧ dictGet (inv.map (fun i => (i.type, i.quantity))) "wood" 0 = 0) := by
      intro hc
      rcases hc with ⟨_, hpos⟩ | ⟨hneg, _⟩
      · exact absurd hpos (not_lt.mpr hwood)
      · omega
    simp [hq]
    exact hwood

/-- C3 (amended): with a pending `mine_block` expectation of
`inventory_change {wood: +1}`, not timed out and with an observation
present, if the observed inventory holds no wood then the match score is 0
(hence below the 0.6 threshold), the status is `mismatch`, the expectation
is cleared, a correction memory entry is appended to working memory, and
the success rate strictly decreases whenever it was positive.  (The
source checks presence of the expected item in the current inventory, not
an actual gain, so the hypothesis must say wood is absent rather than
that no wood was gained.) -/
theorem mine_block_no_wood_mismatch (m : ActionAwarenessState) (st : AgentState)
    (obs : Observation) (stime : Option ℚ) (t now : ℚ)
    (hexp : m.expected_outcome = some
      { action := "mine_block"
        expected_changes := { inventory_change := some [("wood", 1)] }
        set_time := stime })
    (htime : m.expected_set_time = some t)
    (hontime : ¬ (action_timeout < now - t))
    (hobs : st.current_observation = some obs)
    (hwood : dictGet (st.current_inventory.map (fun i => (i.type, i.quantity))) "wood" 0 ≤ 0) :
    compute_match_score (some
        { action := "mine_block"
          expected_changes := { inventory_change := some [("wood", 1)] }
          set_time := stime }) (some obs) st = 0
    ∧ (awProcess m st now).1.status = "mismatch"
    ∧ (awProcess m st now).1.match_score = some 0
    ∧ (awProcess m st now).2.1.expected_outcome = none
    ∧ (awProcess m st now).2.2.working_memory.getLast? = some
        { type := some "action_failure"
          expected := some "mine_block"
          reason := some (generate_correction
            { action := "mine_block"
              expected_changes := { inventory_change := some [("wood", 1)] }
              set_time := stime })
          timestamp := some now }
    ∧ (0 < st.action_success_rate →
        (awProcess m st now).2.2.action_success_rate < st.action_success_rate) := by
  have hinv := check_inventory_change_no_wood st.current_inventory hwood
  have hscore : compute_match_score (some
      { action := "mine_block"
        expected_changes := { inventory_change := some [("wood", 1)] }
        set_time := stime }) (some obs) st = 0 := by
    simp [compute_match_score, hinv]
  have hlt : compute_match_score (some
      { action := "mine_block"
        expected_changes := { inventory_change := some [("wood", 1)] }
        set_time := stime }) (some obs) st < match_threshold := by
    rw [hscore]
    norm_num [match_threshold]
  have hshape := awProcess_mismatch_shape m st _ obs t now hexp htime hontime hobs hlt
  refine ⟨hscore, ?_, ?_, ?_, ?_, ?_⟩
  · rw [hshape]
  · rw [hshape]
    dsimp only
    rw [hscore]
  · rw [hshape]
  · rw [hshape]
    dsimp only
    exact add_to_memory_working_getLast _ _ _
  · intro hpos
    rw [hshape]
    dsimp only
    rw [add_to_memory_preserves_rate]
    show update_success_rate_value st.action_success_rate false < st.action_success_rate
    have h9 : update_success_rate_value st.action_success_rate false
        = st.action_success_rate * (9/10) := by
      unfold update_success_rate_value
      norm_num
    rw [h9]
    nlinarith

/-- Concrete expectation of mining one wood. -/
def mineWoodExp : Expectation :=
  { action := "mine_block"
    expected_changes := { inventory_change := some [("wood", 1)] }
    set_time := some 0 }

/-- Module state holding the pending wood expectation since time 0. -/
def mineWoodModule : ActionAwarenessState :=
  { expected_outcome := some mineWoodExp, expected_set_time := some 0 }

/-- Concrete state whose inventory holds stone but no wood. -/
def woodlessState : AgentState :=
  { baseAgentState with
    current_observation := some {}
    current_inventory := [{ type := "stone", quantity := 5 }] }

/-- Witness for C3 (amended) at a concrete woodless inventory. -/
theorem mine_block_no_wood_mismatch_witness :
    compute_match_score (some mineWoodExp) (some {}) woodlessState = 0
    ∧ (awProcess mineWoodModule woodlessState 1).1.status = "mismatch"
    ∧ (awProcess mineWoodModule woodlessState 1).2.2.action_success_rate
        < woodlessState.action_success_rate := by
  have h := mine_block_no_wood_mismatch mineWoodModule woodlessState {} (some 0) 0 1
    rfl rfl (by norm_num [action_timeout]) rfl (by decide)
  exact ⟨h.1, h.2.1, h.2.2.2.2.2 (by norm_num [woodlessState, baseAgentState])⟩

/-- Shape of the success branch of `process`: with a live expectation, an
observation present and the score reaching the threshold, the module
reports success, clears the expectation and feeds a success to the EMA —
without touching any memory tier. -/
theorem awProcess_success_shape (m : ActionAwarenessState) (st : AgentState)
    (e : Expectation) (obs : Observation) (t now : ℚ)
    (hexp : m.expected_outcome = some e)
    (htime : m.expected_set_time = some t)
    (hontime : ¬ (action_timeout < now - t))
    (hobs : st.current_observation = some obs)
    (hscore : match_threshold ≤ compute_match_score (some e) (some obs) st) :
    awProcess m st now =
      ({ status := "success"
         match_score := some (compute_match_score (some e) (some obs) st) },
       { m with expected_outcome := none },
       update_success_rate st true) := by
  obtain ⟨eo, est⟩ := m
  simp only at hexp htime
  subst hexp htime
  have hd : decide (action_timeout < now - t) = false := decide_eq_false hontime
  simp [awProcess, hd, hobs, hscore]

/-- Concrete state that already held 3 wood before the action — no wood
was gained, but wood is present. -/
def woodfulState : AgentState :=
  { baseAgentState with
    current_observation := some {}
    current_inventory := [{ type := "wood", quantity := 3 }] }

/-- Counterexample for C3 as stated: with the pending wood expectation and
an observed state that gained nothing (the 3 wood were already held), the
code scores a full match — the status is `success`, not `mismatch`, no
correction memory is appended and the success rate does not decrease. -/
theorem mine_block_wood_present_counterexample :
    compute_match_score (some mineWoodExp) (some {}) woodfulState = 1
    ∧ (awProcess mineWoodModule woodfulState 1).1.status = "success"
    ∧ (awProcess mineWoodModule woodfulState 1).2.2.working_memory = []
    ∧ ¬ ((awProcess mineWoodModule woodfulState 1).2.2.action_success_rate
          < woodfulState.action_success_rate) := by
  have hc : check_inventory_change [("wood", 1)]
      [({ type := "wood", quantity := 3 } : InvItem)] = 1 := by
    norm_num [check_inventory_change, dictGet]
  have hscore : compute_match_score (some mineWoodExp) (some {}) woodfulState = 1 := by
    simp [compute_match_score, mineWoodExp, woodfulState, baseAgentState, hc]
  have hsucc : match_threshold ≤ compute_match_score (some mineWoodExp) (some {}) woodfulState := by
    rw [hscore]
    norm_num [match_threshold]
  have hshape := awProcess_success_shape mineWoodModule woodfulState mineWoodExp {} 0 1
    rfl rfl (by norm_num [action_timeout]) rfl hsucc
  refine ⟨hscore, ?_, ?_, ?_⟩
  · rw [hshape]
  · rw [hshape]
    dsimp only
    simp [update_success_rate, woodfulState, baseAgentState]
  · rw [hshape]
    dsimp only
    simp [update_success_rate, update_success_rate_value, woodfulState, baseAgentState]

/-! ### C7 — working memory keeps the last five items -/

/-- The last-`n` suffix never exceeds `n` elements. -/
theorem length_keepLast (n : ℕ) {α : Type} (l : List α) : (keepLast n l).length ≤ n := by
  simp only [keepLast, List.length_drop]
  omega

/-- A list short enough is its own last-`n` suffix. -/
theorem keepLast_of_le {n : ℕ} {α : Type} {l : List α} (h : l.length ≤ n) :
    keepLast n l = l := by
  unfold keepLast
  rw [Nat.sub_eq_zero_of_le h, List.drop_zero]

/-- Taking the last `n` elements twice around an append collapses. -/
theorem keepLast_append_keepLast (n : ℕ) {α : Type} (a b : List α) :
    keepLast n (keepLast n a ++ b) = keepLast n (a ++ b) := by
  by_cases h : a.length ≤ n
  · rw [keepLast_of_le h]
  · push_neg at h
    have hle : a.length - n ≤ a.length := Nat.sub_le _ _
    unfold keepLast
    rw [List.length_append, List.length_append, List.length_drop]
    have h2 : a.length - (a.length - n) + b.length - n = b.length := by omega
    rw [h2, ← List.drop_append_of_le_length hle, List.drop_drop]
    congr 1
    omega

/-- One capped working-memory append equals keeping the last 5 of the
appended list. -/
theorem capped_eq_keepLast {α : Type} (l : List α) (x : α) (h : l.length ≤ 5) :
    (if 5 < (l ++ [x]).length then (l ++ [x]).tail else l ++ [x])
      = keepLast 5 (l ++ [x]) := by
  rcases Nat.lt_or_ge l.length 5 with h5 | h5
  · rw [if_neg (by simp; omega), keepLast_of_le (by simp; omega)]
  · have h5' : l.length = 5 := le_antisymm h h5
    rw [if_pos (by simp [h5'])]
    unfold keepLast
    rw [List.length_append, h5']
    norm_num

/-- `add_to_memory` on the working tier of a within-cap state keeps the
last 5 of the appended list. -/
theorem add_to_memory_working_eq (st : AgentState) (item : MemoryItem) (now : ℚ)
    (h : st.working_memory.length ≤ 5) :
    (add_to_memory st "working" item now).working_memory
      = keepLast 5 (st.working_memory ++ [{ item with timestamp := some now }]) := by
  have hcap := capped_eq_keepLast st.working_memory ({ item with timestamp := some now }) h
  simpa [add_to_memory] using hcap

/-- Folding a sequence of working-memory adds over a within-cap state
yields exactly the last 5 stamped items of the whole stream. -/
theorem working_memory_foldl_eq (ps : List (MemoryItem × ℚ)) :
    ∀ st : AgentState, st.working_memory.length ≤ 5 →
      (ps.foldl (fun s p => add_to_memory s "working" p.1 p.2) st).working_memory
        = keepLast 5 (st.working_memory ++ ps.map (fun p => { p.1 with timestamp := some p.2 })) := by
  induction ps with
  | nil =>
    intro st h
    simpa using (keepLast_of_le h).symm
  | cons p ps ih =>
    intro st h
    have hstep := add_to_memory_working_eq st p.1 p.2 h
    have hlen : (add_to_memory st "working" p.1 p.2).working_memory.length ≤ 5 := by
      rw [hstep]
      exact length_keepLast 5 _
    calc (List.foldl (fun s p => add_to_memory s "working" p.1 p.2) st (p :: ps)).working_memory
        = keepLast 5 ((add_to_memory st "working" p.1 p.2).working_memory
            ++ ps.map (fun p => { p.1 with timestamp := some p.2 })) := by
          simpa using ih (add_to_memory st "working" p.1 p.2) hlen
      _ = keepLast 5 ((st.working_memory ++ [{ p.1 with timestamp := some p.2 }])
            ++ ps.map (fun p => { p.1 with timestamp := some p.2 })) := by
          rw [hstep, keepLast_append_keepLast]
      _ = keepLast 5 (st.working_memory ++ (p :: ps).map (fun p => { p.1 with timestamp := some p.2 })) := by
          rw [List.map_cons, List.append_assoc]
          rfl

/-- C7: for every sequence of `add_to_memory('working', ...)` calls on a
state within the cap, the working tier afterwards is exactly the last 5
stamped items of the appended stream — so its length never exceeds 5 and
it always holds the most recently added items, the oldest being dropped
on overflow.  Every intermediate state is covered by instantiating the
call sequence with a prefix. -/
theorem working_memory_cap_and_recency (st : AgentState)
    (ps : List (MemoryItem × ℚ)) (h : st.working_memory.length ≤ 5) :
    ((ps.foldl (fun s p => add_to_memory s "working" p.1 p.2) st).working_memory
        = keepLast 5 (st.working_memory ++ ps.map (fun p => { p.1 with timestamp := some p.2 })))
    ∧ (ps.foldl (fun s p => add_to_memory s "working" p.1 p.2) st).working_memory.length ≤ 5 := by
  have heq := working_memory_foldl_eq ps st h
  exact ⟨heq, heq ▸ length_keepLast 5 _⟩

/-- Six concrete stamped adds used by the C7 witness. -/
def sixAdds : List (MemoryItem × ℚ) :=
  [(({ event := some "e1" } : MemoryItem), 1), (({ event := some "e2" } : MemoryItem), 2),
   (({ event := some "e3" } : MemoryItem), 3), (({ event := some "e4" } : MemoryItem), 4),
   (({ event := some "e5" } : MemoryItem), 5), (({ event := some "e6" } : MemoryItem), 6)]

/-- Witness for C7: six adds on a fresh state keep only the last five. -/
theorem working_memory_cap_and_recency_witness :
    ((sixAdds.foldl (fun s p => add_to_memory s "working" p.1 p.2) baseAgentState).working_memory
        = keepLast 5 (baseAgentState.working_memory
            ++ sixAdds.map (fun p => { p.1 with timestamp := some p.2 })))
    ∧ (sixAdds.foldl (fun s p => add_to_memory s "working" p.1 p.2) baseAgentState).working_memory.length ≤ 5 :=
  working_memory_cap_and_recency baseAgentState sixAdds (by simp [baseAgentState])

/-! ### C8 — short-term trim behaviour -/

/-- One capped tier append (arbitrary cap) equals keeping the last `n` of
the appended list. -/
theorem cappedN_eq_keepLast {α : Type} (n : ℕ) (l : List α) (x : α) (h : l.length ≤ n) :
    (if n < (l ++ [x]).length then (l ++ [x]).tail else l ++ [x])
      = keepLast n (l ++ [x]) := by
  rcases Nat.lt_or_ge l.length n with h5 | h5
  · rw [if_neg (by simp; omega), keepLast_of_le (by simp; omega)]
  · have h5' : l.length = n := le_antisymm h h5
    rw [if_pos (by simp [h5'])]
    unfold keepLast
    rw [List.length_append, h5']
    simp

/-- `add_to_memory` on the short-term tier of a within-cap state keeps the
last 50 of the appended list — so the entry dropped on overflow is the
oldest one, regardless of importance. -/
theorem add_to_memory_short_term_eq (st : AgentState) (item : MemoryItem) (now : ℚ)
    (h : st.short_term_memory.length ≤ 50) :
    (add_to_memory st "short_term" item now).short_term_memory
      = keepLast 50 (st.short_term_memory ++ [{ item with timestamp := some now }]) := by
  have hcap := cappedN_eq_keepLast 50 st.short_term_memory
    ({ item with timestamp := some now }) h
  simpa [add_to_memory] using hcap

/-- Boolean check that every kept memory has importance at least that of
every dropped memory (`m.get('importance', 0)` ordering). -/
def allImportanceGE (kept dropped : List MemoryItem) : Bool :=
  kept.all (fun x => dropped.all (fun y =>
    decide (y.importance.getD 0 ≤ x.importance.getD 0)))

/-- Consolidation always leaves the short-term tier within its 50 cap. -/
theorem consolidate_short_term_le_50 (st : AgentState) :
    ((consolidate_working_to_short_term st).1.short_term_memory).length ≤ 50 := by
  unfold consolidate_working_to_short_term
  dsimp only
  split_ifs with h
  · simp
  · exact Nat.le_of_not_lt h

/-- When consolidation overflows the cap, the retained tier is the first
50 of the importance-descending sort: every retained memory dominates
every dropped one, and retained plus dropped is a permutation of the
pre-trim tier. -/
theorem consolidate_trim_top50 (st : AgentState)
    (h : 50 < (consolidationAppend st).length) :
    (consolidate_working_to_short_term st).1.short_term_memory
        = (sortMemDesc (consolidationAppend st)).take 50
    ∧ allImportanceGE ((sortMemDesc (consolidationAppend st)).take 50)
        ((sortMemDesc (consolidationAppend st)).drop 50) = true
    ∧ ((sortMemDesc (consolidationAppend st)).take 50
        ++ (sortMemDesc (consolidationAppend st)).drop 50).Perm (consolidationAppend st) := by
  refine ⟨?_, ?_, ?_⟩
  · unfold consolidate_working_to_short_term
    dsimp only
    rw [if_pos h]
  · have hsorted : List.Sorted memImpGE (sortMemDesc (consolidationAppend st)) :=
      List.sorted_insertionSort memImpGE _
    have hsplit : List.Pairwise memImpGE
        ((sortMemDesc (consolidationAppend st)).take 50
          ++ (sortMemDesc (consolidationAppend st)).drop 50) := by
      rw [List.take_append_drop]
      exact hsorted
    have hcross := (List.pairwise_append.mp hsplit).2.2
    simp only [allImportanceGE, List.all_eq_true]
    intro x hx y hy
    exact decide_eq_true (hcross x hx y hy)
  · rw [List.take_append_drop]
    exact List.perm_insertionSort memImpGE _

/-- C8 (amended): the short-term tier stays within its 50 cap after either
trimming path, but the two paths drop different entries:
`add_to_memory('short_term', ...)` keeps the last 50 items (dropping the
oldest, regardless of importance), while the consolidation trim keeps the
50 highest-importance items (every retained item dominates every dropped
one). -/
theorem short_term_trim_behavior :
    (∀ (st : AgentState) (item : MemoryItem) (now : ℚ),
        st.short_term_memory.length ≤ 50 →
        (add_to_memory st "short_term" item now).short_term_memory
          = keepLast 50 (st.short_term_memory ++ [{ item with timestamp := some now }]))
    ∧ (∀ st : AgentState,
        ((consolidate_working_to_short_term st).1.short_term_memory).length ≤ 50)
    ∧ (∀ st : AgentState, 50 < (consolidationAppend st).length →
        (consolidate_working_to_short_term st).1.short_term_memory
            = (sortMemDesc (consolidationAppend st)).take 50
        ∧ allImportanceGE ((sortMemDesc (consolidationAppend st)).take 50)
            ((sortMemDesc (consolidationAppend st)).drop 50) = true
        ∧ ((sortMemDesc (consolidationAppend st)).take 50
            ++ (sortMemDesc (consolidationAppend st)).drop 50).Perm (consolidationAppend st)) :=
  ⟨add_to_memory_short_term_eq, consolidate_short_term_le_50, consolidate_trim_top50⟩

/-- Concrete overflowing short-term tier for the C8 witness. -/
def bigShortState : AgentState :=
  { baseAgentState with
    short_term_memory := List.replicate 51 ({ event := some "x", importance := some (1/10) }) }

/-- Witness for C8 at a fresh state and at a 51-item tier. -/
theorem short_term_trim_behavior_witness :
    ((add_to_memory baseAgentState "short_term" { event := some "m" } 3).short_term_memory
        = keepLast 50 (baseAgentState.short_term_memory
            ++ [{ ({ event := some "m" } : MemoryItem) with timestamp := some 3 }]))
    ∧ ((consolidate_working_to_short_term bigShortState).1.short_term_memory
          = (sortMemDesc (consolidationAppend bigShortState)).take 50
      ∧ allImportanceGE ((sortMemDesc (consolidationAppend bigShortState)).take 50)
          ((sortMemDesc (consolidationAppend bigShortState)).drop 50) = true
      ∧ ((sortMemDesc (consolidationAppend bigShortState)).take 50
          ++ (sortMemDesc (consolidationAppend bigShortState)).drop 50).Perm
            (consolidationAppend bigShortState)) :=
  ⟨short_term_trim_behavior.1 baseAgentState _ 3 (by simp [baseAgentState]),
   short_term_trim_behavior.2.2 bigShortState
     (by simp [consolidationAppend, promotedMemories, bigShortState, baseAgentState])⟩

/-- High-importance memory sitting at the front (oldest) of the tier. -/
def c8High : MemoryItem := { event := some "high", importance := some (9/10) }

/-- Low-importance filler memory. -/
def c8Low : MemoryItem := { event := some "low", importance := some (1/10) }

/-- Low-importance newcomer memory. -/
def c8New : MemoryItem := { event := some "new", importance := some (1/20) }

/-- Concrete 50-item tier whose oldest entry has the highest importance. -/
def c8Before : AgentState :=
  { baseAgentState with short_term_memory := c8High :: List.replicate 49 c8Low }

/-- Counterexample for C8 as stated: trimming via
`add_to_memory('short_term', ...)` drops the oldest entry, which here has
the highest importance (0.9), while a lower-importance entry (0.05) is
retained — so the retained items are not those with the highest
importance. -/
theorem short_term_addMemory_drops_highest_counterexample :
    (add_to_memory c8Before "short_term" c8New 7).short_term_memory
      = List.replicate 49 c8Low ++ [{ c8New with timestamp := some 7 }]
    ∧ c8High ∈ c8Before.short_term_memory
    ∧ c8High ∉ (add_to_memory c8Before "short_term" c8New 7).short_term_memory
    ∧ { c8New with timestamp := some 7 } ∈ (add_to_memory c8Before "short_term" c8New 7).short_term_memory
    ∧ ({ c8New with timestamp := some 7 } : MemoryItem).importance.getD 0
        < c8High.importance.getD 0 := by
  have hmem : (add_to_memory c8Before "short_term" c8New 7).short_term_memory
      = List.replicate 49 c8Low ++ [{ c8New with timestamp := some 7 }] := by
    simp [add_to_memory, c8Before, baseAgentState]
  refine ⟨hmem, ?_, ?_, ?_, ?_⟩
  · simp [c8Before]
  · rw [hmem]
    simp [c8High, c8Low, c8New]
  · rw [hmem]
    simp
  · norm_num [c8New, c8High]

/-! ### C9 — goal insert, sort and trim -/

/-- Unfolding equation for the goal-insertion step. -/
theorem goal_process_insert_goals (st : AgentState) (desc : String) (now : ℚ) :
    (goal_process_insert st desc now).current_goals
      = (sortGoalsDesc (st.current_goals ++
          [{ description := desc, generated_at := some now, status := some "active"
             priority := compute_priority desc st }])).take 3 := rfl

/-- C9 (amended): the module trims to 3 goals, not 5.  If the goal list
has 5 entries, exactly one of which is at the minimum priority 0.4, and a
newly generated goal gets priority 0.9, then after insert, descending
sort and trim the list has exactly 3 goals, all of priority above 0.4 —
in particular the 0.4 goal is evicted, but the length becomes 3 rather
than staying 5. -/
theorem goal_insert_cap3_evicts_lowest (st : AgentState) (desc : String) (now : ℚ)
    (hlen : st.current_goals.length = 5)
    (hone : st.current_goals.countP (fun g => decide (g.priority ≤ 2/5)) = 1)
    (_hmin : ∃ g ∈ st.current_goals, g.priority = 2/5)
    (hpri : compute_priority desc st = 9/10) :
    (goal_process_insert st desc now).current_goals.length = 3
    ∧ (goal_process_insert st desc now).current_goals.all
        (fun g => decide ((2:ℚ)/5 < g.priority)) = true := by
  have hres : (goal_process_insert st desc now).current_goals
      = (sortGoalsDesc (st.current_goals ++
          [{ description := desc, generated_at := some now, status := some "active"
             priority := compute_priority desc st }])).take 3 := rfl
  set entry : Goal :=
    { description := desc, generated_at := some now, status := some "active"
      priority := compute_priority desc st } with hentry
  set full : List Goal := st.current_goals ++ [entry] with hfull
  have hfull_len : full.length = 6 := by
    simp [hfull, hlen]
  have hsorted_len : (sortGoalsDesc full).length = 6 := by
    simp [sortGoalsDesc, List.length_insertionSort, hfull_len]
  constructor
  · rw [hres, List.length_take, hsorted_len]
    decide
  · rw [hres, List.all_eq_true]
    intro g hg
    refine decide_eq_true ?_
    by_contra hgt
    push_neg at hgt
    set p : Goal → Bool := fun g => decide (g.priority ≤ 2/5) with hp
    have hsorted : List.Sorted goalPriGE (sortGoalsDesc full) :=
      List.sorted_insertionSort goalPriGE _
    have hsplit : List.Pairwise goalPriGE
        ((sortGoalsDesc full).take 3 ++ (sortGoalsDesc full).drop 3) := by
      rw [List.take_append_drop]
      exact hsorted
    have hcross := (List.pairwise_append.mp hsplit).2.2
    have hdropall : ∀ y ∈ (sortGoalsDesc full).drop 3, p y = true := by
      intro y hy
      exact decide_eq_true (le_trans (hcross g hg y hy) hgt)
    have hcdrop : ((sortGoalsDesc full).drop 3).countP p
        = ((sortGoalsDesc full).drop 3).length :=
      List.countP_eq_length.mpr hdropall
    have hlendrop : ((sortGoalsDesc full).drop 3).length = 3 := by
      rw [List.length_drop, hsorted_len]
    have hctake : 0 < ((sortGoalsDesc full).take 3).countP p := by
      refine List.countP_pos_iff.mpr ⟨g, hg, decide_eq_true hgt⟩
    have hctotal : (sortGoalsDesc full).countP p = full.countP p :=
      (List.perm_insertionSort goalPriGE full).countP_eq p
    have hfullcount : full.countP p = 1 := by
      rw [hfull, List.countP_append, hone]
      have hentryp : p entry = false := by
        simp only [hp, hentry, hpri]
        norm_num
      simp [hentryp]
    have hparts : (sortGoalsDesc full).countP p
        = ((sortGoalsDesc full).take 3).countP p
          + ((sortGoalsDesc full).drop 3).countP p := by
      rw [← List.countP_append, List.take_append_drop]
    omega

/-- The five goals of the C9 witness scenario: lowest priority 0.4, the
others strictly above it. -/
def c9Goals : List Goal :=
  [{ description := "g1", priority := 4/5 }, { description := "g2", priority := 7/10 },
   { description := "g3", priority := 3/5 }, { description := "g4", priority := 1/2 },
   { description := "g5", priority := 2/5 }]

/-- Hungry agent with the five C9 goals. -/
def c9State : AgentState :=
  { baseAgentState with current_hunger := 5, current_goals := c9Goals }

/-- Witness for C9 (amended): the hungry agent generates "Find food" at
priority 0.9; after insert, sort, trim the list has 3 goals, all above
0.4. -/
theorem goal_insert_cap3_evicts_lowest_witness :
    (goal_process_insert c9State "Find food" 0).current_goals.length = 3
    ∧ (goal_process_insert c9State "Find food" 0).current_goals.all
        (fun g => decide ((2:ℚ)/5 < g.priority)) = true := by
  have hnot : ¬ (c9State.current_health < 10 ∧ (["health", "heal", "shelter", "hide"].any
      (fun w => pyContains (pyLower "Find food") w)) = true) := by
    rintro ⟨hh, -⟩
    norm_num [c9State, baseAgentState] at hh
  have hyes : c9State.current_hunger < 6 ∧ (["food", "eat", "hunt"].any
      (fun w => pyContains (pyLower "Find food") w)) = true :=
    ⟨by norm_num [c9State, baseAgentState], by decide⟩
  have hpri : compute_priority "Find food" c9State = 9/10 := by
    simp only [compute_priority]
    rw [if_neg hnot, if_pos hyes]
  exact goal_insert_cap3_evicts_lowest c9State "Find food" 0
    (by simp [c9State, c9Goals])
    (by norm_num [c9State, c9Goals, List.countP_cons])
    ⟨{ description := "g5", priority := 2/5 }, by simp [c9State, c9Goals], rfl⟩
    hpri

/-- Counterexample for C9 as stated: in the concrete scenario the list
length after insert, sort and trim is 3 — it does not stay 5. -/
theorem goal_insert_length_counterexample :
    (goal_process_insert c9State "Find food" 0).current_goals.length = 3
    ∧ (goal_process_insert c9State "Find food" 0).current_goals.length ≠ 5 := by
  have h3 : (goal_process_insert c9State "Find food" 0).current_goals.length = 3 := by
    rw [goal_process_insert_goals, List.length_take]
    simp only [sortGoalsDesc]
    rw [List.length_insertionSort]
    simp [c9State, c9Goals, baseAgentState]
  exact ⟨h3, by rw [h3]; norm_num⟩

/-! ### C10 — goal priorities and the operator override -/

/-- C10 (amended): every goal produced by the generation heuristics has
priority in [0,1] (the heuristics only return 1, 0.9, 0.7, 0.6 or 0.5),
but the operator override inserts its goal at the head with the
caller-supplied priority defaulting to 10, which is outside [0,1] — the
unit-interval invariant holds for generated goals only. -/
theorem goal_priority_unit_and_override_default :
    (∀ (goal : String) (st : AgentState),
        0 ≤ compute_priority goal st ∧ compute_priority goal st ≤ 1)
    ∧ (∀ (st : AgentState) (d : Option String) (now : ℚ),
        ((set_agent_goal st d none now).current_goals.head?.map Goal.priority) = some 10)
    ∧ ¬ ((10 : ℚ) ≤ 1) := by
  refine ⟨?_, ?_, by norm_num⟩
  · intro goal st
    simp only [compute_priority]
    split_ifs <;> norm_num
  · intro st d now
    simp [set_agent_goal]

/-- Counterexample for C10 as stated: an operator goal set without an
explicit priority lands at the head of the goal list with priority 10,
which is not in [0,1]. -/
theorem user_goal_priority_outside_unit_counterexample :
    ((set_agent_goal baseAgentState (some "Build a shelter") none 0).current_goals.head?.map
        Goal.priority) = some 10
    ∧ ¬ ((10 : ℚ) ≤ 1) := by
  constructor
  · simp [set_agent_goal, baseAgentState]
  · norm_num
